import Mathlib

/-!
Shallow embedding of `servers/execution-mcp/instruction_executor.py`.

The server is a line-delimited request/response loop over a mutable
`InstructionExecutor` (cursor, history, goal flag), a message-interception
phase that scans the serialized request for interaction keywords, and a
per-method dispatcher.  Machine integers do not occur; strings are modelled
as Lean `String`, the instructions file as an explicit source state
(missing / malformed / parsed), and the diagnostic log file as a trace of
append/truncate operations.  Exceptions raised while handling a request are
modelled with an explicit `raised` outcome, caught by the loop.
-/

/-- Python `pat in s` substring test, on the character lists. -/
def substrB (pat s : String) : Bool := decide (pat.toList <:+: s.toList)

/-- Python `s.upper()` (ASCII suffices for the tokens the code tests). -/
def upperStr (s : String) : String := String.mk (s.toList.map Char.toUpper)

/-- Python `s.lower()`. -/
def lowerStr (s : String) : String := String.mk (s.toList.map Char.toLower)

/-- `"DONE" in llm_response.upper()` — the goal-achievement test of
`InstructionExecutor.add_to_history` (line 171). -/
def containsDone (r : String) : Bool := substrB "DONE" (upperStr r)

/-- One entry of the `steps` array of `instructions.json`. -/
structure Step where
  step : Nat
  description : String
deriving DecidableEq, Repr

/-- Parsed content of `instructions.json` (`goal`, `description`, `steps`,
`requirements`, `success_criteria`), with `none` for absent optional keys. -/
structure InstructionsData where
  goal : Option String
  description : Option String
  steps : List Step
  requirements : List (String × String)
  success_criteria : List String
deriving DecidableEq, Repr

/-- State of the external instructions file: absent, present but not valid
JSON, or parsed. -/
inductive FileState where
  | missing
  | malformed
  | parsed (d : InstructionsData)
deriving DecidableEq, Repr

/-- `InstructionExecutor.get_current_step_data` (lines 114-129): `none` when
the file is missing, when reading/parsing raises (caught), or when the
cursor is at or past the end of the step list. -/
def get_current_step_data (file : FileState) (current_step : Nat) : Option Step :=
  match file with
  | .missing => none
  | .malformed => none
  | .parsed d => d.steps.get? current_step

/-- `InstructionExecutor.read_instructions` (lines 66-112): a markdown
rendering of the file, or a fixed error string.  The malformed-JSON branch
interpolates the decode exception; that detail is abstracted. -/
def read_instructions (file : FileState) : String :=
  match file with
  | .missing => "# No instructions found\n\nPlease create an instructions.json file."
  | .malformed => "# Error reading instructions\n\nInvalid JSON format"
  | .parsed d =>
      let goal := d.goal.getD "No goal specified"
      let desc := d.description.getD "AI Development Instructions"
      let base := "# " ++ desc ++ "\n\n## Current Goal:\n" ++ goal ++
        "\n\n## Steps (" ++ toString d.steps.length ++ " total):" ++
        String.join (d.steps.map (fun s => "\n" ++ toString s.step ++ ". " ++ s.description))
      let withReq :=
        if d.requirements = [] then base
        else base ++ "\n\n## Requirements:\n" ++
          String.intercalate "\n" (d.requirements.map (fun kv => "- " ++ kv.1 ++ ": " ++ kv.2))
      if d.success_criteria = [] then withReq
      else withReq ++ "\n\n## Success Criteria:\n" ++
        String.intercalate "\n" (d.success_criteria.map (fun c => "- " ++ c))

/-- The `instructions_content` field of the `get_current_state` snapshot
(line 492): first 200 characters of `read_instructions`, with a trailing
ellipsis when truncated. -/
def instructionsPreview (file : FileState) : String :=
  let s := read_instructions file
  if 200 < s.length then (String.mk (s.toList.take 200)) ++ "..." else s

/-- The mutable fields of `InstructionExecutor` the protocol observes:
`current_step`, `history`, `goal_achieved` (lines 62-64).  The
`instructions_file` path is carried separately as a `FileState`. -/
structure ExecState where
  current_step : Nat
  history : List String
  goal_achieved : Bool
deriving DecidableEq, Repr

/-- A freshly constructed `InstructionExecutor()` (lines 62-64). -/
def initState : ExecState := ⟨0, [], false⟩

/-- `InstructionExecutor.add_to_history` (lines 164-172): append the
`USER:`/`AI:` pair, advance the cursor, and set the sticky goal flag when
the response contains `DONE` case-insensitively. -/
def add_to_history (s : ExecState) (user_input llm_response : String) : ExecState :=
  { current_step := s.current_step + 1
    history := s.history ++ ["USER: " ++ user_input, "AI: " ++ llm_response]
    goal_achieved := s.goal_achieved || containsDone llm_response }

/-- The executor-state effect of `InstructionExecutor.clear_cache`
(lines 177-180): the three fields are reset (the log-file effect is
modelled separately as `clearCacheLogs`). -/
def clear_cache_exec (s : ExecState) : ExecState :=
  { s with current_step := 0, history := [], goal_achieved := false }

/-- A sequence of `add_to_history` calls from a given state. -/
def advances (s : ExecState) (ps : List (String × String)) : ExecState :=
  ps.foldl (fun t p => add_to_history t p.1 p.2) s

/-- One operation on the diagnostic log file: `log_to_file(message, level)`
appends, `clear_cache` truncates.  Entry text is abbreviated (timestamps,
emoji and quoting dropped); the claims depend only on the operations, their
levels and their identifying prefixes. -/
inductive LogOp where
  | append (level : String) (message : String)
  | truncate
deriving DecidableEq, Repr

/-- The log-file effect of `InstructionExecutor.clear_cache`
(lines 182-189): truncate, then record the fresh-start entry. -/
def clearCacheLogs : List LogOp :=
  [LogOp.truncate,
   LogOp.append "STARTUP" "CACHE CLEARED - Log file emptied for fresh execution monitoring"]

/-- One decoded protocol message.  `method?` is `msg.get("method")`, `id?`
the correlation token (opaque; modelled as `Option Nat`, `none` for a JSON
null or absent id), `toolName?` is `msg.get("params", {}).get("name")`, and
`msg_str` stands for `json.dumps(msg).lower()` (line 230), the serialized
form the interception phase scans; its consistency with the structured
fields is not enforced by the model. -/
structure Msg where
  method? : Option String
  id? : Option Nat
  toolName? : Option String
  msg_str : String
deriving DecidableEq, Repr

/-- `msg.get("method", "unknown")` (line 221), used by the interception
phase. -/
def methodStr (m : Msg) : String := m.method?.getD "unknown"

/-- `msg.get("params", {}).get("name", "unknown")` (line 353), used by the
interception phase. -/
def toolNameStr (m : Msg) : String := m.toolName?.getD "unknown"

/-- `user_prompt_indicators` (lines 233-244): tier-2 generic interaction
keywords, in scan order. -/
def user_prompt_indicators : List String :=
  ["user", "input", "prompt", "question", "ask", "confirm", "choose",
   "select", "enter", "provide"]

/-- `chat_prompt_patterns` (lines 247-265): tier-1 chat-prompt phrases, in
scan order. -/
def chat_prompt_patterns : List String :=
  ["what would you like", "please provide", "please enter", "please specify",
   "please choose", "please select", "do you want", "would you prefer",
   "which option", "how would you like", "please confirm", "please tell me",
   "what should", "please input", "enter your", "type your", "specify the"]

/-- The tier-2 scan (lines 272-283): first matching generic keyword, in
list order (the loop breaks at the first hit). -/
def detected_indicator (msg_str : String) : Option String :=
  user_prompt_indicators.find? (fun p => substrB p msg_str)

/-- The tier-1 scan (lines 285-295): first matching chat-prompt phrase, in
list order (the loop breaks at the first hit). -/
def detected_chat_pattern (msg_str : String) : Option String :=
  chat_prompt_patterns.find? (fun p => substrB p msg_str)

/-- The single triggering token the detection summary (lines 395-401)
reports: the chat-prompt match when one exists, otherwise the generic
keyword match. -/
def summaryToken (msg_str : String) : Option String :=
  match detected_chat_pattern msg_str with
  | some p => some p
  | none => detected_indicator msg_str

/-- The summary log entry (lines 395-401). -/
def summaryLog (m : Msg) : LogOp :=
  match detected_chat_pattern m.msg_str with
  | some p =>
      LogOp.append "SUMMARY" ("SUMMARY: CHAT PROMPT detected via " ++ p ++ " in " ++ methodStr m ++ " message")
  | none =>
      match detected_indicator m.msg_str with
      | some i =>
          LogOp.append "SUMMARY" ("SUMMARY: User interaction detected via " ++ i ++ " in " ++ methodStr m ++ " message")
      | none =>
          LogOp.append "DEBUG" ("SUMMARY: No user interaction detected in " ++ methodStr m ++ " message")

/-- The message-interception phase run before dispatch (lines 219-402):
returns the executor state after the phase and the log trace it writes.
The content-extraction sub-blocks (lines 297-349) and the sampling
sub-block (lines 366-383) write only further log entries from unmodelled
payload fields and are elided; no claim depends on their entries.  The one
state mutation is the `add_to_history` call at line 361, performed when a
`tools/call` message names `run_full_execution`. -/
def interception (m : Msg) (st : ExecState) : ExecState × List LogOp :=
  let incomingLogs :=
    [LogOp.append "INFO" ("INCOMING MESSAGE: " ++ methodStr m),
     LogOp.append "INFO" ("MESSAGE CONTENT: " ++ m.msg_str)]
  let tier2Logs :=
    match detected_indicator m.msg_str with
    | some i =>
        [LogOp.append "ALERT" ("USER INTERACTION DETECTED: " ++ i),
         LogOp.append "ALERT" ("USER INTERACTION DETAILS: " ++ m.msg_str)]
    | none => []
  let tier1Logs :=
    match detected_chat_pattern m.msg_str with
    | some p =>
        [LogOp.append "CHAT_PROMPT" ("CHAT PROMPT DETECTED: " ++ p),
         LogOp.append "CHAT_PROMPT" ("CHAT PROMPT DETAILS: " ++ m.msg_str)]
    | none => []
  let toolTrack :=
    if methodStr m = "tools/call" then
      if toolNameStr m = "run_full_execution" then
        (add_to_history st "Monitoring started" "Watching for user prompts during execution",
         [LogOp.append "INFO" ("TOOL CALLED: " ++ toolNameStr m),
          LogOp.append "EXECUTION" "FULL EXECUTION STARTED - Enhanced monitoring active"])
      else (st, [LogOp.append "INFO" ("TOOL CALLED: " ++ toolNameStr m)])
    else (st, [])
  let responseProbe :=
    if substrB "response" m.msg_str || substrB "answer" m.msg_str then
      [LogOp.append "USER_ACTIVITY" "Possible user response detected"]
    else []
  let sizeProbe :=
    if 1000 < m.msg_str.length then
      [LogOp.append "DEBUG" "Large message detected"]
    else []
  (toolTrack.1,
   incomingLogs ++ tier2Logs ++ tier1Logs ++ toolTrack.2 ++ responseProbe ++
     sizeProbe ++ [summaryLog m])

/-- Body of one protocol response.  The `initialize` and `tools/list`
result payloads are fixed literals in the source (lines 406-479) and are
represented by dedicated constructors; tool results carry their text and
the `isError` flag; `rpcError` is a JSON-RPC `error` object. -/
inductive RespBody where
  | initResult
  | toolsListResult
  | result (text : String) (isError : Bool)
  | rpcError (code : Int) (message : String)
deriving DecidableEq, Repr

/-- One line written by `send_mcp`: the echoed id and the body. -/
structure Response where
  id : Option Nat
  body : RespBody
deriving DecidableEq, Repr

/-- Result of dispatching one parsed message: either the responses sent, or
an exception propagating to the loop's `except` block. -/
inductive Outcome where
  | responses (rs : List Response)
  | raised (e : String)
deriving DecidableEq, Repr

/-- State, log trace and outcome of one dispatch. -/
structure HandlerResult where
  state : ExecState
  logs : List LogOp
  outcome : Outcome
deriving DecidableEq, Repr

/-- The `isError` result text of `run_full_execution` when the step list is
empty (lines 555-569). -/
def noStepsText : String :=
  "❌ No steps found in instructions file. Please ensure instructions.json exists with proper step definitions."

/-- The confirmation text of the `clear_cache` tool (line 644). -/
def clearCacheText : String :=
  "Cache cleared, log file emptied, and instructions reloaded successfully. Ready for fresh execution monitoring."

/-- The execution-plan text `run_full_execution` builds from the parsed
instructions (lines 571-607). -/
def executionPlan (d : InstructionsData) : String :=
  "# " ++ d.description.getD "Instruction Execution" ++
  "\n\n## Goal: " ++ d.goal.getD "Complete the instructions" ++
  "\n\n## Full Execution Plan - Execute All Steps:\n\n" ++
  String.join (d.steps.map (fun s => "**STEP " ++ toString s.step ++ ":** " ++ s.description ++ "\n\n")) ++
  "\n**YOUR TASK:** Execute all " ++ toString d.steps.length ++
  " steps above in sequence using your available tools.\n\n**AVAILABLE TOOLS:**\n- File operations (read_file, write, search_replace, etc.)\n- Terminal commands (run_terminal_cmd)\n- Web browser control (for opening files)\n- Any other tools you have access to\n\n**EXECUTION APPROACH:**\n1. Read through all steps to understand the complete workflow\n2. Execute each step in order\n3. Verify completion of each step before moving to the next\n4. Report progress as you complete each step\n\n**IMPORTANT:** Execute the actual steps using real tools - do not simulate or skip any steps.\n\nBegin execution now with Step 1."

/-- The `get_current_state` snapshot text (lines 487-493).  The source
renders the dictionary with `json.dumps`; the rendering is abstracted as a
labelled concatenation — no claim depends on the exact serialization. -/
def stateSnapshot (st : ExecState) (file : FileState) : String :=
  "current_step: " ++ toString st.current_step ++
  "; goal_achieved: " ++ toString st.goal_achieved ++
  "; history_length: " ++ toString st.history.length ++
  "; instructions_content: " ++ instructionsPreview file

/-- An internal-error body, `"Internal error: " + str(e)` with code -32603
(lines 668-675). -/
def internalError (e : String) : RespBody :=
  RespBody.rpcError (-32603) ("Internal error: " ++ e)

/-- The method/tool dispatch of the server loop (lines 404-660), run after
interception.  `run_full_execution` first logs and performs a full
`clear_cache` (truncating the diagnostic log), then reads the instructions
file: a malformed file makes `json.loads` raise (escaping to the loop's
`except` block); a missing file yields an empty step list.  With steps it
builds the execution plan, records a single `add_to_history` pair, and
responds with the plan.  Unrecognized methods fall through the `elif`
chain and produce no response. -/
def dispatch (m : Msg) (st : ExecState) (file : FileState) : HandlerResult :=
  if m.method? = some "initialize" then
    ⟨st, [], .responses [⟨m.id?, .initResult⟩]⟩
  else if m.method? = some "tools/list" then
    ⟨st, [], .responses [⟨m.id?, .toolsListResult⟩]⟩
  else if m.method? = some "tools/call" then
    if m.toolName? = some "get_current_state" then
      ⟨st, [], .responses [⟨m.id?, .result (stateSnapshot st file) false⟩]⟩
    else if m.toolName? = some "reset_execution" then
      ⟨initState, [],
       .responses [⟨m.id?, .result "Execution reset. Ready to start again." false⟩]⟩
    else if m.toolName? = some "get_history" then
      ⟨st, [],
       .responses [⟨m.id?,
         .result (if st.history = [] then "No execution history yet."
                  else String.intercalate "\n" st.history) false⟩]⟩
    else if m.toolName? = some "run_full_execution" then
      let logs1 :=
        LogOp.append "EXECUTION" "RUN_FULL_EXECUTION CALLED - Starting comprehensive execution" ::
          clearCacheLogs
      let st1 := clear_cache_exec st
      match file with
      | .malformed => ⟨st1, logs1, .raised "json.JSONDecodeError"⟩
      | .missing =>
          ⟨st1, logs1 ++ [LogOp.append "ERROR" "No steps found in instructions file"],
           .responses [⟨m.id?, .result noStepsText true⟩]⟩
      | .parsed d =>
          if d.steps = [] then
            ⟨st1, logs1 ++ [LogOp.append "ERROR" "No steps found in instructions file"],
             .responses [⟨m.id?, .result noStepsText true⟩]⟩
          else
            ⟨add_to_history st1 "Full execution started"
               ("Executing " ++ toString d.steps.length ++ " steps"),
             logs1 ++
               [LogOp.append "EXECUTION"
                  ("EXECUTION PLAN CREATED: " ++ toString d.steps.length ++ " steps"),
                LogOp.append "EXECUTION" ("EXECUTION PLAN CONTENT:\n" ++ executionPlan d),
                LogOp.append "EXECUTION"
                  "EXECUTION PLAN SENT TO CURSOR - Now monitoring for user interactions"],
             .responses [⟨m.id?, .result (executionPlan d) false⟩]⟩
    else if m.toolName? = some "clear_cache" then
      ⟨clear_cache_exec st,
       LogOp.append "EXECUTION" "CLEAR_CACHE CALLED - Preparing for fresh execution monitoring" ::
         clearCacheLogs,
       .responses [⟨m.id?, .result clearCacheText false⟩]⟩
    else
      ⟨st, [],
       .responses [⟨m.id?,
         .rpcError (-32602)
           ("Unknown tool: " ++ (match m.toolName? with | some n => n | none => "None"))⟩]⟩
  else
    ⟨st, [], .responses []⟩

/-- One line of the input stream: a message that `json.loads` decodes, or a
line on which it raises. -/
inductive Line where
  | parsed (m : Msg)
  | malformed
deriving DecidableEq, Repr

/-- Result of one iteration of the server loop.  `last` is the binding of
the Python local `msg` after the iteration: it survives across iterations,
so the `except` block's `msg.get("id") if "msg" in locals() else None`
(line 670) sees the previous successfully parsed message when the current
line failed to parse. -/
structure StepResult where
  last : Option Msg
  state : ExecState
  responses : List Response
  logs : List LogOp
deriving DecidableEq, Repr

/-- One iteration of the `for line in sys.stdin` loop (lines 215-675):
parse, intercept, dispatch, and convert any exception into a single -32603
error response; a malformed line leaves the stale `msg` binding in place,
so the error response echoes the previous message's id (or null before any
parse succeeded). -/
def processLine (last : Option Msg) (line : Line) (st : ExecState) (file : FileState) :
    StepResult :=
  match line with
  | .malformed =>
      { last := last
        state := st
        responses := [⟨last.bind (fun mm => mm.id?), internalError "json.JSONDecodeError"⟩]
        logs := LogOp.append "ERROR" "ERROR processing message" ::
          (match last with
           | some _ => [LogOp.append "ERROR" "ERROR MESSAGE CONTENT"]
           | none => []) }
  | .parsed m =>
      let ic := interception m st
      let r := dispatch m ic.1 file
      match r.outcome with
      | .responses rs =>
          { last := some m, state := r.state, responses := rs, logs := ic.2 ++ r.logs }
      | .raised e =>
          { last := some m
            state := r.state
            responses := [⟨m.id?, internalError e⟩]
            logs := ic.2 ++ r.logs ++
              [LogOp.append "ERROR" ("ERROR processing message: " ++ e),
               LogOp.append "ERROR" "ERROR MESSAGE CONTENT"] }

/-- The loop over the whole input, from a given `msg` binding and state,
collecting each line's responses. -/
def loopAux (last : Option Msg) (st : ExecState) (file : FileState) :
    List Line → List (List Response)
  | [] => []
  | l :: ls =>
      let r := processLine last l st file
      r.responses :: loopAux r.last r.state file ls

/-- The server loop from process start: no `msg` binding yet, fresh
executor. -/
def processAll (lines : List Line) (file : FileState) : List (List Response) :=
  loopAux none initState file lines

/-- Modelled from the spec: classification outcome of the pattern
classifier (spec §4.1 / data model `InterruptionDecision.pattern_kind`).
The classifier implementation is absent from the sources; only the
dispatcher's inline pattern lists survive, which the spec's tiers reuse. -/
inductive PatternKind where
  | noMatch
  | generic_interaction
  | chat_prompt
  | question
deriving DecidableEq, Repr

/-- Modelled from the spec: the tier-3 last-resort question vocabulary
(spec §4.1, item 3). -/
def question_words : List String :=
  ["please", "enter", "input", "choose", "select", "confirm"]

/-- Modelled from the spec: `classify(text)` (spec §4.1) — lowercase the
text, then test the three ordered tiers, most specific first; tier 1 uses
the chat-prompt phrases, tier 2 the generic interaction keywords, tier 3
the `?`/keyword heuristic. -/
def classifyKind (text : String) : PatternKind :=
  let t := lowerStr text
  if chat_prompt_patterns.any (fun p => substrB p t) then .chat_prompt
  else if user_prompt_indicators.any (fun p => substrB p t) then .generic_interaction
  else if substrB "?" t || question_words.any (fun w => substrB w t) then .question
  else .noMatch

/-- Modelled from the spec: the interruption handler's per-run phase
(spec §4.2 state machine Idle → Armed → Triggered → resolved). -/
inductive HandlerPhase where
  | idle
  | armed
  | triggered
  | autoAnswered
  | surfaced
deriving DecidableEq, Repr

/-- Modelled from the spec: `ExecutionInterruptionHandler` — imported by
`test_interruption_handling.py` (line 10) but absent from the sources.
Owns the auto-confirm policy (`enabled` flag and configured response text,
spec §3 `AutoConfirmPolicy` and §4.2) and its per-run phase. -/
structure ExecutionInterruptionHandler where
  auto_confirm : Bool
  response_text : String
  phase : HandlerPhase
deriving DecidableEq, Repr

/-- Modelled from the spec: result of `handle_interruption()` — either the
synthetic auto-confirm reply, or the signal that the caller must block and
surface the prompt upstream (spec §4.2). -/
inductive InterruptionAction where
  | autoReply (text : String)
  | surface
deriving DecidableEq, Repr

/-- Modelled from the spec: `detect_interruption(text)` — a thin wrapper
over the classifier, true iff the pattern kind is not `none`; the first
detection during a run moves the handler to Triggered (spec §4.2). -/
def detect_interruption (h : ExecutionInterruptionHandler) (text : String) :
    Bool × ExecutionInterruptionHandler :=
  let matched := classifyKind text ≠ .noMatch
  if matched then (true, { h with phase := .triggered }) else (false, h)

/-- Modelled from the spec: `handle_interruption()` — when the policy is
enabled, return the configured auto-confirm response text; when disabled,
signal that the caller must block and surface the prompt upstream
(spec §4.2). -/
def handle_interruption (h : ExecutionInterruptionHandler) :
    InterruptionAction × ExecutionInterruptionHandler :=
  if h.auto_confirm then (.autoReply h.response_text, { h with phase := .autoAnswered })
  else (.surface, { h with phase := .surfaced })

/-- Modelled from the spec: `reset()` forces any phase back to Idle
(spec §4.2). -/
def handler_reset (h : ExecutionInterruptionHandler) : ExecutionInterruptionHandler :=
  { h with phase := .idle }

/-- A successful `find?` splits its list at the first element satisfying
the predicate: everything before it fails the test. -/
theorem find?_split {α : Type} (p : α → Bool) :
    ∀ (l : List α) (a : α), l.find? p = some a →
      ∃ l₁ l₂, l = l₁ ++ a :: l₂ ∧ p a = true ∧ ∀ x ∈ l₁, p x = false := by
  intro l
  induction l with
  | nil => intro a h; simp [List.find?] at h
  | cons b t ih =>
      intro a h
      by_cases hb : p b
      · refine ⟨[], t, ?_, ?_, ?_⟩
        · simp [List.find?, hb] at h
          simp [h]
        · simp [List.find?, hb] at h
          rw [← h]; exact hb
        · intro x hx; simp at hx
      · simp [List.find?, hb] at h
        obtain ⟨l₁, l₂, hl, hpa, hall⟩ := ih a h
        refine ⟨b :: l₁, l₂, by simp [hl], hpa, ?_⟩
        intro x hx
        rcases List.mem_cons.mp hx with hx | hx
        · subst hx; simpa using hb
        · exact hall x hx

/-- Each `add_to_history` adds one to the cursor and two history entries,
so a run of them adds `n` and `2 * n`. -/
theorem advances_counts (ps : List (String × String)) :
    ∀ (s : ExecState),
      (advances s ps).current_step = s.current_step + ps.length ∧
      (advances s ps).history.length = s.history.length + 2 * ps.length := by
  induction ps with
  | nil => intro s; simp [advances]
  | cons p ps ih =>
      intro s
      have h := ih (add_to_history s p.1 p.2)
      simp only [advances, List.foldl_cons] at h ⊢
      rcases h with ⟨h1, h2⟩
      refine ⟨?_, ?_⟩
      · rw [h1]; simp [add_to_history]; omega
      · rw [h2]; simp [add_to_history]; omega

/-- The loop emits one response list per input line. -/
theorem loopAux_length (lines : List Line) :
    ∀ (last : Option Msg) (st : ExecState) (file : FileState),
      (loopAux last st file lines).length = lines.length := by
  induction lines with
  | nil => intro last st file; simp [loopAux]
  | cons l ls ih =>
      intro last st file
      simp [loopAux, ih]

/-- Claim C5: starting from a freshly constructed or freshly reset
executor, any uninterrupted sequence of advance (`add_to_history`) calls
leaves `len(history)` even and equal to `2 * current_step`. -/
theorem C5_history_invariant (s : ExecState) (ps : List (String × String)) :
    ((advances initState ps).history.length = 2 * (advances initState ps).current_step ∧
      Even (advances initState ps).history.length) ∧
    ((advances (clear_cache_exec s) ps).history.length =
        2 * (advances (clear_cache_exec s) ps).current_step ∧
      Even (advances (clear_cache_exec s) ps).history.length) := by
  obtain ⟨h1a, h1b⟩ := advances_counts ps initState
  obtain ⟨h2a, h2b⟩ := advances_counts ps (clear_cache_exec s)
  refine ⟨⟨?_, ?_⟩, ⟨?_, ?_⟩⟩
  · rw [h1a, h1b]; simp [initState]
  · rw [h1b]; simp [initState]
  · rw [h2a, h2b]; simp [clear_cache_exec]
  · rw [h2b]; simp [clear_cache_exec]

/-- Claim C6: `advance` sets `goal_achieved` to the old flag or-ed with the
case-insensitive `DONE` test on the response text — so it is set exactly
when the response contains `DONE` (from a non-achieved state), is sticky
once true, and only a reset clears it. -/
theorem C6_goal_achieved (s : ExecState) (u r : String) :
    (add_to_history s u r).goal_achieved = (s.goal_achieved || containsDone r) ∧
    (add_to_history { s with goal_achieved := true } u r).goal_achieved = true ∧
    (clear_cache_exec s).goal_achieved = false := by
  refine ⟨rfl, ?_, rfl⟩
  simp [add_to_history]

/-- Claim C7: a reset — the `reset_execution` tool (which rebinds a fresh
`InstructionExecutor`) or `clear_cache` — yields `current_step = 0`, empty
history and `goal_achieved = false`, whatever the prior state. -/
theorem C7_reset (s st : ExecState) (mid : Option Nat) (file : FileState) (ms : String) :
    clear_cache_exec s = initState ∧
    (dispatch ⟨some "tools/call", mid, some "reset_execution", ms⟩ st file).state = initState ∧
    (dispatch ⟨some "tools/call", mid, some "clear_cache", ms⟩ st file).state = initState ∧
    initState.current_step = 0 ∧ initState.history = [] ∧ initState.goal_achieved = false := by
  refine ⟨rfl, ?_, ?_, rfl, rfl, rfl⟩
  · simp [dispatch]
  · simp [dispatch, clear_cache_exec, initState]

/-- Claim C9: every `tools/call` dispatch of `run_full_execution` performs
a full `clear_cache` before responding, so its log trace contains the
truncation of the diagnostic log — a side effect shared only with the
`clear_cache` tool; no other handler truncates. -/
theorem C9_log_truncation (st : ExecState) (mid : Option Nat) (file : FileState) (ms : String) :
    LogOp.truncate ∈
      (dispatch ⟨some "tools/call", mid, some "run_full_execution", ms⟩ st file).logs ∧
    LogOp.truncate ∈
      (dispatch ⟨some "tools/call", mid, some "clear_cache", ms⟩ st file).logs ∧
    LogOp.truncate ∉
      (dispatch ⟨some "tools/call", mid, some "get_current_state", ms⟩ st file).logs ∧
    LogOp.truncate ∉
      (dispatch ⟨some "tools/call", mid, some "reset_execution", ms⟩ st file).logs ∧
    LogOp.truncate ∉
      (dispatch ⟨some "tools/call", mid, some "get_history", ms⟩ st file).logs ∧
    LogOp.truncate ∉ (dispatch ⟨some "initialize", mid, none, ms⟩ st file).logs ∧
    LogOp.truncate ∉ (dispatch ⟨some "tools/list", mid, none, ms⟩ st file).logs := by
  refine ⟨?_, ?_, ?_, ?_, ?_, ?_, ?_⟩
  · cases file with
    | missing => simp [dispatch, clearCacheLogs]
    | malformed => simp [dispatch, clearCacheLogs]
    | parsed d =>
        by_cases hd : d.steps = [] <;> simp [dispatch, clearCacheLogs, hd]
  · simp [dispatch, clearCacheLogs]
  · simp [dispatch]
  · simp [dispatch]
  · simp [dispatch]
  · simp [dispatch]
  · simp [dispatch]

/-- Claim C10: `get_current_step_data` is total and returns `none` alike
when the instructions file is missing, when its contents fail to parse,
and when the cursor is at or past the end of the step list — the three
conditions are indistinguishable at this interface. -/
theorem C10_step_data (d : InstructionsData) (n : Nat) (h : d.steps.length ≤ n) :
    get_current_step_data .missing n = none ∧
    get_current_step_data .malformed n = none ∧
    get_current_step_data (.parsed d) n = none := by
  refine ⟨rfl, rfl, ?_⟩
  show d.steps.get? n = none
  exact List.get?_eq_none.mpr h

/-- Witness for C10 at a one-step file and cursor 5. -/
theorem C10_step_data_witness :
    (InstructionsData.mk none none [⟨1, "read file A"⟩] [] []).steps.length ≤ 5 ∧
    (get_current_step_data .missing 5 = none ∧
     get_current_step_data .malformed 5 = none ∧
     get_current_step_data (.parsed (InstructionsData.mk none none [⟨1, "read file A"⟩] [] [])) 5 = none) :=
  ⟨by decide, C10_step_data (InstructionsData.mk none none [⟨1, "read file A"⟩] [] []) 5 (by decide)⟩

/-- Claim C8: on a triggered interruption handler, `handle_interruption`
returns the configured auto-confirm response text when the policy is
enabled, and the block-and-surface signal when it is disabled. -/
theorem C8_handle_interruption (h : ExecutionInterruptionHandler)
    (_ht : h.phase = .triggered) :
    (h.auto_confirm = true →
      (handle_interruption h).1 = .autoReply h.response_text ∧
      (handle_interruption h).2.phase = .autoAnswered) ∧
    (h.auto_confirm = false →
      (handle_interruption h).1 = .surface ∧
      (handle_interruption h).2.phase = .surfaced) := by
  constructor <;> intro hc <;> simp [handle_interruption, hc]

/-- Witness for C8 at the spec's Scenario D policy, enabled and disabled. -/
theorem C8_handle_interruption_witness :
    ((handle_interruption ⟨true, "y\n", HandlerPhase.triggered⟩).1 = .autoReply "y\n" ∧
      (handle_interruption ⟨true, "y\n", HandlerPhase.triggered⟩).2.phase = .autoAnswered) ∧
    ((handle_interruption ⟨false, "y\n", HandlerPhase.triggered⟩).1 = .surface ∧
      (handle_interruption ⟨false, "y\n", HandlerPhase.triggered⟩).2.phase = .surfaced) :=
  ⟨(C8_handle_interruption ⟨true, "y\n", HandlerPhase.triggered⟩ rfl).1 rfl,
   (C8_handle_interruption ⟨false, "y\n", HandlerPhase.triggered⟩ rfl).2 rfl⟩

/-- Claim C1 counterexample: with exactly the spec's Scenario A step source
(two steps, no DONE token anywhere), one `run_full_execution` call leaves
`current_step = 1`, not 2 — the handler performs a reset and a single
advance, never an iteration per step. -/
theorem C1_counterexample :
    (processLine none
        (Line.parsed ⟨some "tools/call", some 1, some "run_full_execution", "c"⟩)
        initState
        (FileState.parsed ⟨none, none, [⟨1, "read file A"⟩, ⟨2, "write file B"⟩], [], []⟩)).state.current_step = 1 ∧
    (processLine none
        (Line.parsed ⟨some "tools/call", some 1, some "run_full_execution", "c"⟩)
        initState
        (FileState.parsed ⟨none, none, [⟨1, "read file A"⟩, ⟨2, "write file B"⟩], [], []⟩)).state.current_step ≠ 2 := by
  decide

/-- Claim C1 (amended): `run_full_execution` resets the execution state via
a full `clear_cache` and, when the step source yields a non-empty step
list, advances the cursor exactly once (its single `add_to_history` pair)
and responds with one execution-plan message listing all steps; with no
steps it responds with the no-steps error result. -/
theorem C1_run_full_execution (st st2 : ExecState) (mid mid2 : Option Nat)
    (ms ms2 : String) (d : InstructionsData) (h : d.steps ≠ []) :
    ((dispatch ⟨some "tools/call", mid, some "run_full_execution", ms⟩ st (.parsed d)).state.current_step = 1 ∧
     (dispatch ⟨some "tools/call", mid, some "run_full_execution", ms⟩ st (.parsed d)).state.history.length = 2 ∧
     (dispatch ⟨some "tools/call", mid, some "run_full_execution", ms⟩ st (.parsed d)).outcome =
       .responses [⟨mid, .result (executionPlan d) false⟩]) ∧
    (dispatch ⟨some "tools/call", mid2, some "run_full_execution", ms2⟩ st2 .missing).outcome =
      .responses [⟨mid2, .result noStepsText true⟩] := by
  refine ⟨⟨?_, ?_, ?_⟩, ?_⟩
  · simp [dispatch, h, add_to_history, clear_cache_exec]
  · simp [dispatch, h, add_to_history, clear_cache_exec]
  · simp [dispatch, h]
  · simp [dispatch]

/-- Witness for C1 at the Scenario A step source. -/
theorem C1_run_full_execution_witness :
    (InstructionsData.mk none none [⟨1, "read file A"⟩, ⟨2, "write file B"⟩] [] []).steps ≠ [] ∧
    (((dispatch ⟨some "tools/call", some 1, some "run_full_execution", "c"⟩ initState
        (.parsed (InstructionsData.mk none none [⟨1, "read file A"⟩, ⟨2, "write file B"⟩] [] []))).state.current_step = 1 ∧
      (dispatch ⟨some "tools/call", some 1, some "run_full_execution", "c"⟩ initState
        (.parsed (InstructionsData.mk none none [⟨1, "read file A"⟩, ⟨2, "write file B"⟩] [] []))).state.history.length = 2 ∧
      (dispatch ⟨some "tools/call", some 1, some "run_full_execution", "c"⟩ initState
        (.parsed (InstructionsData.mk none none [⟨1, "read file A"⟩, ⟨2, "write file B"⟩] [] []))).outcome =
        .responses [⟨some 1, .result (executionPlan (InstructionsData.mk none none [⟨1, "read file A"⟩, ⟨2, "write file B"⟩] [] [])) false⟩]) ∧
     (dispatch ⟨some "tools/call", some 2, some "run_full_execution", "d"⟩ initState .missing).outcome =
       .responses [⟨some 2, .result noStepsText true⟩]) :=
  ⟨by decide,
   C1_run_full_execution initState initState (some 1) (some 2) "c" "d"
     (InstructionsData.mk none none [⟨1, "read file A"⟩, ⟨2, "write file B"⟩] [] []) (by decide)⟩

/-- Claim C3 counterexample: for a `tools/call` request naming
`run_full_execution`, the pre-dispatch interception phase itself mutates
the execution state (the `add_to_history` call at line 361): from a fresh
state the cursor is already 1 before dispatch runs. -/
theorem C3_counterexample :
    (interception ⟨some "tools/call", some 1, some "run_full_execution", "zz"⟩ initState).1.current_step = 1 ∧
    (interception ⟨some "tools/call", some 1, some "run_full_execution", "zz"⟩ initState).1 ≠ initState := by
  decide

/-- Claim C3 (amended): the pre-dispatch interception phase writes only
diagnostic log entries (in particular it never truncates the log) and
leaves the execution state unchanged — except that a `tools/call` request
naming `run_full_execution` appends one monitoring history pair, advancing
the cursor by one, before dispatch. -/
theorem C3_interception_effect (m : Msg) (st : ExecState) :
    (interception m st).1 =
      (if methodStr m = "tools/call" ∧ toolNameStr m = "run_full_execution" then
        add_to_history st "Monitoring started" "Watching for user prompts during execution"
      else st) ∧
    LogOp.truncate ∉ (interception m st).2 := by
  constructor
  · by_cases h1 : methodStr m = "tools/call"
    · by_cases h2 : toolNameStr m = "run_full_execution"
      · simp [interception, h1, h2]
      · simp [interception, h1, h2]
    · simp [interception, h1]
  · rcases hdi : detected_indicator m.msg_str with _ | i <;>
      rcases hdc : detected_chat_pattern m.msg_str with _ | p <;>
      by_cases h1 : methodStr m = "tools/call" <;>
      by_cases h2 : toolNameStr m = "run_full_execution" <;>
      by_cases h3 : (substrB "response" m.msg_str || substrB "answer" m.msg_str) = true <;>
      by_cases h4 : 1000 < m.msg_str.length <;>
      simp [interception, summaryLog, hdi, hdc, h1, h2, h3, h4]

/-- Claim C4 counterexample: on the text "please provide", tier 1 matches
the chat-prompt phrase "please provide", yet the tier-2 generic keywords
are still scanned — the first generic match "provide" is recorded and its
alert is logged.  Tier 2 is not gated on tier 1 finding nothing (the code
scans tier 2 first and unconditionally). -/
theorem C4_counterexample :
    detected_chat_pattern "please provide" = some "please provide" ∧
    detected_indicator "please provide" = some "provide" ∧
    LogOp.append "ALERT" "USER INTERACTION DETECTED: provide" ∈
      (interception ⟨some "m", none, none, "please provide"⟩ initState).2 := by
  decide

/-- Claim C4 (amended): both keyword tiers are scanned for every message
(a tier-2 generic-keyword match is detected and logged even when a tier-1
chat-prompt phrase matches), but the summary reports a single triggering
token: the first match in scan order of the chat-prompt phrases when one
exists, otherwise the first match in scan order of the generic keywords. -/
theorem C4_summary_first_match (s t : String) (h : summaryToken s = some t) :
    (∃ l₁ l₂, chat_prompt_patterns = l₁ ++ t :: l₂ ∧ substrB t s = true ∧
        ∀ p ∈ l₁, substrB p s = false) ∨
    ((∀ p ∈ chat_prompt_patterns, substrB p s = false) ∧
      ∃ l₁ l₂, user_prompt_indicators = l₁ ++ t :: l₂ ∧ substrB t s = true ∧
        ∀ p ∈ l₁, substrB p s = false) := by
  rcases hdc : detected_chat_pattern s with _ | p
  · simp [summaryToken, hdc] at h
    right
    refine ⟨?_, find?_split _ _ _ h⟩
    intro q hq
    have h2 := List.find?_eq_none.mp hdc q hq
    simpa using h2
  · simp [summaryToken, hdc] at h
    subst h
    left
    exact find?_split _ _ _ hdc

/-- Witness for C4 at the text "please provide", whose reported token is
the tier-1 phrase "please provide". -/
theorem C4_summary_first_match_witness :
    summaryToken "please provide" = some "please provide" ∧
    ((∃ l₁ l₂, chat_prompt_patterns = l₁ ++ "please provide" :: l₂ ∧
        substrB "please provide" "please provide" = true ∧
        ∀ p ∈ l₁, substrB p "please provide" = false) ∨
     ((∀ p ∈ chat_prompt_patterns, substrB p "please provide" = false) ∧
      ∃ l₁ l₂, user_prompt_indicators = l₁ ++ "please provide" :: l₂ ∧
        substrB "please provide" "please provide" = true ∧
        ∀ p ∈ l₁, substrB p "please provide" = false)) :=
  ⟨by decide, C4_summary_first_match "please provide" "please provide" (by decide)⟩

/-- A recognized method always yields exactly one sent response echoing the
request id, unless the handler raises (only `run_full_execution` on a
malformed instructions file). -/
theorem dispatch_one_response (m : Msg) (st : ExecState) (file : FileState)
    (h : m.method? = some "initialize" ∨ m.method? = some "tools/list" ∨
      m.method? = some "tools/call") :
    (dispatch m st file).outcome = .raised "json.JSONDecodeError" ∨
      ∃ b, (dispatch m st file).outcome = .responses [⟨m.id?, b⟩] := by
  by_cases h1 : m.method? = some "initialize"
  · exact Or.inr ⟨.initResult, by simp [dispatch, h1]⟩
  by_cases h2 : m.method? = some "tools/list"
  · exact Or.inr ⟨.toolsListResult, by simp [dispatch, h1, h2]⟩
  have h3 : m.method? = some "tools/call" := by tauto
  by_cases t1 : m.toolName? = some "get_current_state"
  · exact Or.inr ⟨.result (stateSnapshot st file) false, by simp [dispatch, h3, t1]⟩
  by_cases t2 : m.toolName? = some "reset_execution"
  · exact Or.inr ⟨.result "Execution reset. Ready to start again." false,
      by simp [dispatch, h3, t1, t2]⟩
  by_cases t3 : m.toolName? = some "get_history"
  · exact Or.inr ⟨.result (if st.history = [] then "No execution history yet."
      else String.intercalate "\n" st.history) false, by simp [dispatch, h3, t1, t2, t3]⟩
  by_cases t4 : m.toolName? = some "run_full_execution"
  · cases file with
    | malformed => exact Or.inl (by simp [dispatch, h3, t1, t2, t3, t4])
    | missing =>
        exact Or.inr ⟨.result noStepsText true, by simp [dispatch, h3, t1, t2, t3, t4]⟩
    | parsed d =>
        by_cases hd : d.steps = []
        · exact Or.inr ⟨.result noStepsText true, by simp [dispatch, h3, t1, t2, t3, t4, hd]⟩
        · exact Or.inr ⟨.result (executionPlan d) false,
            by simp [dispatch, h3, t1, t2, t3, t4, hd]⟩
  by_cases t5 : m.toolName? = some "clear_cache"
  · exact Or.inr ⟨.result clearCacheText false, by simp [dispatch, h3, t1, t2, t3, t4, t5]⟩
  · exact Or.inr ⟨.rpcError (-32602)
      ("Unknown tool: " ++ (match m.toolName? with | some n => n | none => "None")),
      by simp [dispatch, h3, t1, t2, t3, t4, t5]⟩

/-- A message whose method is not in the handled set falls through the
`elif` chain: no response at all. -/
theorem dispatch_no_response (m : Msg) (st : ExecState) (file : FileState)
    (h1 : m.method? ≠ some "initialize") (h2 : m.method? ≠ some "tools/list")
    (h3 : m.method? ≠ some "tools/call") :
    (dispatch m st file).outcome = .responses [] := by
  simp [dispatch, h1, h2, h3]

/-- Claim C2 (amended): a line parsing to a request with a recognized
method (`initialize`, `tools/list`, `tools/call`) yields exactly one
response carrying the request id; a parsed request with any other method
yields no response; an unparsable line yields one -32603 error response
whose id is the id of the most recently parsed message — null only when no
line has parsed yet — and the loop processes every line (one response list
per input line), so no malformed line terminates it. -/
theorem C2_responses (last : Option Msg) (st : ExecState) (file : FileState)
    (m : Msg) (lines : List Line) :
    ((m.method? = some "initialize" ∨ m.method? = some "tools/list" ∨
        m.method? = some "tools/call") →
      (processLine last (.parsed m) st file).responses.map Response.id = [m.id?]) ∧
    ((m.method? ≠ some "initialize" ∧ m.method? ≠ some "tools/list" ∧
        m.method? ≠ some "tools/call") →
      (processLine last (.parsed m) st file).responses = []) ∧
    ((processLine last .malformed st file).responses =
      [⟨last.bind (fun mm => mm.id?), internalError "json.JSONDecodeError"⟩]) ∧
    ((loopAux last st file lines).length = lines.length) := by
  refine ⟨?_, ?_, ?_, loopAux_length lines last st file⟩
  · intro h
    rcases dispatch_one_response m (interception m st).1 file h with hout | ⟨b, hout⟩
    · simp [processLine, hout]
    · simp [processLine, hout]
  · intro h
    obtain ⟨h1, h2, h3⟩ := h
    have hout := dispatch_no_response m (interception m st).1 file h1 h2 h3
    simp [processLine, hout]
  · simp [processLine]

/-- Witness for C2 on a recognized call with id 3 and on an unrecognized
method. -/
theorem C2_responses_witness :
    (processLine none (Line.parsed ⟨some "initialize", some 3, none, "q"⟩)
        initState .missing).responses.map Response.id = [some 3] ∧
    (processLine none (Line.parsed ⟨some "other", none, none, "q"⟩)
        initState .missing).responses = [] :=
  ⟨(C2_responses none initState .missing ⟨some "initialize", some 3, none, "q"⟩ []).1
     (Or.inl rfl),
   (C2_responses none initState .missing ⟨some "other", none, none, "q"⟩ []).2.1
     (by refine ⟨?_, ?_, ?_⟩ <;> decide)⟩

/-- Claim C2 counterexample: after the line with id 5 parses and the line
with id 7 parses to an unrecognized method, the unrecognized request gets
no response at all, and the following malformed line gets an error
response carrying the stale id 7 of the previous message — not id null. -/
theorem C2_counterexample :
    processAll
      [Line.parsed ⟨some "initialize", some 5, none, "a"⟩,
       Line.parsed ⟨some "foo", some 7, none, "b"⟩,
       Line.malformed] .missing =
      [[⟨some 5, RespBody.initResult⟩], [],
       [⟨some 7, internalError "json.JSONDecodeError"⟩]] := by
  decide

